import Mathlib

/-!
Shallow embedding of `src/main.go` of the pills-bot repository: a Telegram
medicine-lookup adapter.  Pure data flow is embedded directly; the HTTP
transport and JSON decoding are abstracted as an `ApiOutcome` parameter
(transport error / decode error with the partially decoded value / success),
matching the three ways the Go call sites behave.  Go `int` is embedded as
`Int` (inputs are assumed within int64 range; `strconv.Atoi`'s overflow
clamping is elided, which is irrelevant to the claims checked here).
-/

namespace PillsBot

/-- Go struct `Medicine` (src/main.go:46-52). -/
structure Medicine where
  id : String
  name : String
  components : String
  slug : String
  isPopular : Int
deriving Repr, DecidableEq

/-- Go struct `MedicineInfo` (src/main.go:54-59). -/
structure MedicineInfo where
  medicineID : String
  medicineName : String
  medicineSlug : String
  dateRevision : String
deriving Repr, DecidableEq

/-- Go struct `Analog` (src/main.go:61-69). -/
structure Analog where
  analogID : String
  analogName : String
  analogSlug : String
  componentsMatch : Int
  applyingsMatch : Int
  treatmentsMatch : Int
  percentage : Int
deriving Repr, DecidableEq

/-- Go struct `SearchMedicineRequest` (src/main.go:20-25); the field name
keeps the source's `HoumeCountry` spelling. -/
structure SearchMedicineRequest where
  apiKey : String
  state : String
  houmeCountry : Int
  query : String
deriving Repr, DecidableEq

/-- Go struct `SearchMedicineResponse` (src/main.go:27-29). -/
structure SearchMedicineResponse where
  medicines : List Medicine
deriving Repr, DecidableEq

/-- Go struct `SearchAnalogRequest` (src/main.go:31-38). -/
structure SearchAnalogRequest where
  apiKey : String
  state : String
  houmeCountry : Int
  targetCountry : Int
  language : String
  medicine : Int
deriving Repr, DecidableEq

/-- Go struct `SearchAnalogResponse` (src/main.go:40-44). -/
structure SearchAnalogResponse where
  medicineInfo : MedicineInfo
  homeCountry : MedicineInfo
  analogs : List Analog
deriving Repr, DecidableEq

/-- The process-wide configuration loaded in `main` (src/main.go:71-77,
94-116): `ApiKey`, `HoumeCountryID`, `TargetCountryID`. -/
structure Config where
  apiKey : String
  houmeCountryID : Int
  targetCountryID : Int
deriving Repr, DecidableEq

/-- A JSON field value as produced by Go's `json.Marshal` on the two
request structs (only strings and ints occur). -/
inductive JsonValue where
  | jstr (s : String)
  | jint (n : Int)
deriving Repr, DecidableEq

/-- `json.Marshal` of `SearchMedicineRequest`: fields in struct order with
their `json:"..."` tags (src/main.go:20-25). -/
def SearchMedicineRequest.marshal (r : SearchMedicineRequest) :
    List (String × JsonValue) :=
  [("api_key", .jstr r.apiKey), ("state", .jstr r.state),
   ("home_country", .jint r.houmeCountry), ("query", .jstr r.query)]

/-- `json.Marshal` of `SearchAnalogRequest`: fields in struct order with
their `json:"..."` tags (src/main.go:31-38). -/
def SearchAnalogRequest.marshal (r : SearchAnalogRequest) :
    List (String × JsonValue) :=
  [("api_key", .jstr r.apiKey), ("state", .jstr r.state),
   ("home_country", .jint r.houmeCountry),
   ("target_country", .jint r.targetCountry),
   ("language", .jstr r.language), ("medicine", .jint r.medicine)]

/-- Outcome of one outbound HTTP call as seen at the call site: the
request failed before a body was decoded (`client.Do` error, covering the
other pre-decode error returns as well), the body failed to decode with
`sofar` the partially filled target struct, or the body decoded fully. -/
inductive ApiOutcome (α : Type) where
  | transportError
  | decodeError (sofar : α)
  | ok (value : α)
deriving Repr

/-- Go `searchMedicines` (src/main.go:235-275): builds the request envelope
from the configuration and the query, and returns the medicines slice plus
an error flag.  Every error path returns the empty slice literal
`[]Medicine{}`. -/
def searchMedicines (cfg : Config) (query : String)
    (outcome : ApiOutcome SearchMedicineResponse) :
    SearchMedicineRequest × List Medicine × Bool :=
  let req : SearchMedicineRequest :=
    ⟨cfg.apiKey, "main_search", cfg.houmeCountryID, query⟩
  match outcome with
  | .transportError => (req, [], true)
  | .decodeError _ => (req, [], true)
  | .ok resp => (req, resp.medicines, false)

/-- Go `searchAnalogs` (src/main.go:277-319): builds the request envelope
and returns `(Analogs, MedicineInfo, error)`.  On a transport error it
returns the zero values; on a decode error it returns the partially decoded
`Analogs` together with the `HomeCountry` field (src/main.go:315); on
success it returns `Analogs` and `MedicineInfo` (src/main.go:318). -/
def searchAnalogs (cfg : Config) (medicineID : Int)
    (outcome : ApiOutcome SearchAnalogResponse) :
    SearchAnalogRequest × List Analog × MedicineInfo × Bool :=
  let req : SearchAnalogRequest :=
    ⟨cfg.apiKey, "main_search", cfg.houmeCountryID, cfg.targetCountryID,
     "ru", medicineID⟩
  match outcome with
  | .transportError => (req, [], ⟨"", "", "", ""⟩, true)
  | .decodeError sofar => (req, sofar.analogs, sofar.homeCountry, true)
  | .ok resp => (req, resp.analogs, resp.medicineInfo, false)

/-- One inline keyboard button (go-telegram `models.InlineKeyboardButton`,
only the three fields the source sets; unset Go string fields are the zero
value `""`). -/
structure InlineKeyboardButton where
  text : String
  callbackData : String
  url : String
deriving Repr, DecidableEq

/-- One `b.SendMessage` call: the text and the optional inline keyboard
(`ReplyMarkup` is absent on the plain-text sends). -/
structure SentMessage where
  text : String
  buttons : Option (List (List InlineKeyboardButton))
deriving Repr, DecidableEq

/-- Go `strconv.Itoa` on an `int` (decimal, with a leading minus sign for
negative values). -/
def itoa (i : Int) : String := toString i

/-- The button-building loop of `searchMedicineHandler`
(src/main.go:159-170): one single-button row per medicine, breaking once
`index == 10`; the callback payload is `"search_analog:" + medicine.ID`. -/
def medicineButtonsFrom : Nat → List Medicine → List (List InlineKeyboardButton)
  | _, [] => []
  | index, m :: rest =>
    if index == 10 then []
    else [⟨m.name, "search_analog:" ++ m.id, ""⟩] :: medicineButtonsFrom (index + 1) rest

/-- The loop started at `index = 0`, as the Go `range` does. -/
def medicineButtons (ms : List Medicine) : List (List InlineKeyboardButton) :=
  medicineButtonsFrom 0 ms

/-- The button-building loop of `searcheAnalogHandler` (src/main.go:198-210):
one single-button row per analog, breaking once `index == 10`; each button
is labeled `AnalogName + " (" + Itoa(Percentage) + "%)"` and carries a URL
(`"https://pillintrip.com/ru/medicine/" + AnalogSlug`), no callback data. -/
def analogButtonsFrom : Nat → List Analog → List (List InlineKeyboardButton)
  | _, [] => []
  | index, a :: rest =>
    if index == 10 then []
    else [⟨a.analogName ++ " (" ++ itoa a.percentage ++ "%)", "",
          "https://pillintrip.com/ru/medicine/" ++ a.analogSlug⟩]
         :: analogButtonsFrom (index + 1) rest

/-- The loop started at `index = 0`. -/
def analogButtons (as : List Analog) : List (List InlineKeyboardButton) :=
  analogButtonsFrom 0 as

/-- Go `strings.Split(s, ":")` restricted to a one-character separator,
expressed on the character list: splits at every occurrence of `sep`;
the result is never empty (`Split` on a nonempty separator always yields
at least one piece). -/
def splitOnChar (sep : Char) : List Char → List (List Char)
  | [] => [[]]
  | c :: rest =>
    if c = sep then [] :: splitOnChar sep rest
    else
      match splitOnChar sep rest with
      | [] => [[c]]
      | piece :: more => (c :: piece) :: more

/-- Go `strings.HasPrefix(data, pattern)`: the predicate behind the bot
framework's `MatchTypePrefix` dispatch (src/main.go:123-124). -/
def hasPrefixStr (pattern data : String) : Bool :=
  List.isPrefixOf pattern.data data.data

/-- The id extraction `strings.Split(update.CallbackQuery.Data, ":")[1]`
shared by both callback handlers (src/main.go:187, 227); `none` models the
index-out-of-range panic when the split has fewer than two elements. -/
def extractCallbackID (data : String) : Option String :=
  match (splitOnChar ':' data.data).get? 1 with
  | none => none
  | some piece => some (String.mk piece)

/-- The largest Go `int` (64-bit). -/
def intMax : Int := 2 ^ 63 - 1

/-- The smallest Go `int` (64-bit). -/
def intMin : Int := -(2 ^ 63)

/-- Go `strconv.Atoi` (optional sign, then ASCII decimal digits): the
returned value together with the error flag.  A syntax error — empty
string, lone sign, or any non-digit — yields `(0, true)`; a numeral
outside the 64-bit `int` range is an `ErrRange` error and yields the
clamped bound, `(intMax, true)` or `(intMin, true)`; otherwise the exact
value with no error. -/
def atoi (s : String) : Int × Bool :=
  match s.data with
  | [] => (0, true)
  | c :: rest =>
    let digits := if c = '-' || c = '+' then rest else c :: rest
    if digits.isEmpty then (0, true)
    else if digits.all Char.isDigit then
      let n : Nat := digits.foldl (fun acc d => acc * 10 + (d.toNat - '0'.toNat)) 0
      let v : Int := if c = '-' then -(n : Int) else (n : Int)
      if v < intMin then (intMin, true)
      else if intMax < v then (intMax, true)
      else (v, false)
    else (0, true)

/-- The value kept when a call site discards `Atoi`'s error with `_`
(src/main.go:187, 227): the parsed integer, `0` on a syntax error, the
clamped bound on a range error. -/
def atoiValue (s : String) : Int := (atoi s).1

/-- The country-id idiom of `main` (src/main.go:100-103, 109-112): the
`Atoi` value, overwritten with `0` whenever `Atoi` reported any error —
syntax or range. -/
def atoiOrZero (s : String) : Int :=
  if (atoi s).2 then 0 else (atoi s).1

/-- Go `searchMedicineHandler` (src/main.go:145-179).  `messageText` is
`update.Message` (`none` when the update carries no message, in which case
the handler returns without sending anything); the result is the one
`SendMessage` call it performs. -/
def searchMedicineHandler (cfg : Config) (messageText : Option String)
    (outcome : ApiOutcome SearchMedicineResponse) : Option SentMessage :=
  match messageText with
  | none => none
  | some text =>
    let r := searchMedicines cfg text outcome
    if r.2.2 || r.2.1.length == 0 then
      some ⟨"Мне не удалось ничего найти.", none⟩
    else
      some ⟨"Вот что я нашел. Выберите лекарство, для которого нужно найти аналоги.",
            some (medicineButtons r.2.1)⟩

/-- Go `searcheAnalogHandler` (src/main.go:181-219) (the source's spelling).
`data` is `update.CallbackQuery.Data`; the `AnswerCallbackQuery`
acknowledgment is not modelled.  `none` models the panic of the unchecked
`[1]` index on the split payload. -/
def searcheAnalogHandler (cfg : Config) (data : String)
    (outcome : ApiOutcome SearchAnalogResponse) : Option SentMessage :=
  match extractCallbackID data with
  | none => none
  | some idStr =>
    let medicineID := atoiValue idStr
    let r := searchAnalogs cfg medicineID outcome
    if r.2.2.2 || r.2.1.length == 0 then
      some ⟨"Мне не удалось найти аналоги для \"" ++ r.2.2.1.medicineName ++ "\".", none⟩
    else
      some ⟨"Вот аналоги для \"" ++ r.2.2.1.medicineName ++ "\":",
            some (analogButtons r.2.1)⟩

/-- Go `showMedicineHandler` (src/main.go:221-233): extracts an id the same
way and replies with a placeholder text, no buttons. -/
def showMedicineHandler (data : String) : Option SentMessage :=
  match extractCallbackID data with
  | none => none
  | some idStr =>
    some ⟨"Тут инфа по ценам для MedicineId=" ++ itoa (atoiValue idStr), none⟩

/-- Outcome of process startup (src/main.go:87-116): `log.Fatal` exits the
process with a non-zero status after printing the diagnostic, or the
configuration is in place and the bot starts. -/
inductive StartupResult where
  | fatalExit (diagnostic : String)
  | started (botToken : String) (cfg : Config)
deriving Repr, DecidableEq

/-- `true` when startup ended the process with a non-zero exit status. -/
def StartupResult.exitsNonzero : StartupResult → Bool
  | .fatalExit _ => true
  | .started _ _ => false

/-- The environment-validation prefix of `main` (src/main.go:88-116).
`os.Getenv` yields `""` for a missing variable, so each argument is the
raw environment string.  A country id is parsed with `strconv.Atoi`; on
any `Atoi` error (syntax or range) the id is set to `0`, and the process
exits iff the id is `0`. -/
def startup (botToken apiKeyEnv homeEnv targetEnv : String) : StartupResult :=
  if botToken.length == 0 then .fatalExit "Не указан токен телеграм бота"
  else if apiKeyEnv.length == 0 then .fatalExit "Не указан ключ API"
  else
    let houmeCountryID := atoiOrZero homeEnv
    if houmeCountryID == 0 then .fatalExit "Не указана домашняя страна"
    else
      let targetCountryID := atoiOrZero targetEnv
      if targetCountryID == 0 then .fatalExit "Не указана страна поиска"
      else .started botToken ⟨apiKeyEnv, houmeCountryID, targetCountryID⟩

/-! ### Supporting lemmas -/

/-- The medicine-button loop is `take 10` followed by a map, for any start
index at most 10. -/
theorem medicineButtonsFrom_eq_take (ms : List Medicine) :
    ∀ k, k ≤ 10 →
      medicineButtonsFrom k ms =
        (ms.take (10 - k)).map
          (fun m => [⟨m.name, "search_analog:" ++ m.id, ""⟩]) := by
  induction ms with
  | nil => intro k _; simp [medicineButtonsFrom]
  | cons m rest ih =>
    intro k hk
    by_cases h : k = 10
    · subst h; simp [medicineButtonsFrom]
    · have h10 : 10 - k = (10 - (k + 1)) + 1 := by omega
      simp only [medicineButtonsFrom, beq_iff_eq, h, if_false, h10,
        List.take_succ_cons, List.map_cons, ih (k + 1) (by omega)]

/-- `medicineButtons` as `take`-then-`map`. -/
theorem medicineButtons_eq_take (ms : List Medicine) :
    medicineButtons ms =
      (ms.take 10).map (fun m => [⟨m.name, "search_analog:" ++ m.id, ""⟩]) := by
  simpa using medicineButtonsFrom_eq_take ms 0 (by omega)

/-- The analog-button loop is `take 10` followed by a map, for any start
index at most 10. -/
theorem analogButtonsFrom_eq_take (as : List Analog) :
    ∀ k, k ≤ 10 →
      analogButtonsFrom k as =
        (as.take (10 - k)).map
          (fun a => [⟨a.analogName ++ " (" ++ itoa a.percentage ++ "%)", "",
                     "https://pillintrip.com/ru/medicine/" ++ a.analogSlug⟩]) := by
  induction as with
  | nil => intro k _; simp [analogButtonsFrom]
  | cons a rest ih =>
    intro k hk
    by_cases h : k = 10
    · subst h; simp [analogButtonsFrom]
    · have h10 : 10 - k = (10 - (k + 1)) + 1 := by omega
      simp only [analogButtonsFrom, beq_iff_eq, h, if_false, h10,
        List.take_succ_cons, List.map_cons, ih (k + 1) (by omega)]

/-- `analogButtons` as `take`-then-`map`. -/
theorem analogButtons_eq_take (as : List Analog) :
    analogButtons as =
      (as.take 10).map
        (fun a => [⟨a.analogName ++ " (" ++ itoa a.percentage ++ "%)", "",
                   "https://pillintrip.com/ru/medicine/" ++ a.analogSlug⟩]) := by
  simpa using analogButtonsFrom_eq_take as 0 (by omega)

/-- `strings.Split` never returns an empty slice. -/
theorem splitOnChar_ne_nil (sep : Char) (l : List Char) :
    splitOnChar sep l ≠ [] := by
  cases l with
  | nil => simp [splitOnChar]
  | cons c rest =>
    simp only [splitOnChar]
    by_cases h : c = sep
    · simp [h]
    · simp only [h, if_false]
      cases splitOnChar sep rest <;> simp

/-- A list with an explicit occurrence of the separator splits into at
least two pieces. -/
theorem two_le_length_splitOnChar (sep : Char) (l1 l2 : List Char) :
    2 ≤ (splitOnChar sep (l1 ++ sep :: l2)).length := by
  induction l1 with
  | nil =>
    have h := splitOnChar_ne_nil sep l2
    have e : splitOnChar sep ([] ++ sep :: l2) = [] :: splitOnChar sep l2 := by
      simp [splitOnChar]
    rw [e]
    cases hsp : splitOnChar sep l2 with
    | nil => exact absurd hsp h
    | cons p more => simp only [List.length_cons]; omega
  | cons c l1 ih =>
    simp only [List.cons_append, splitOnChar, List.append_eq]
    split
    · simp only [List.length_cons]
      omega
    · cases hr : splitOnChar sep (l1 ++ sep :: l2) with
      | nil => exact absurd hr (splitOnChar_ne_nil _ _)
      | cons p more =>
        rw [hr] at ih
        simp only [List.length_cons] at ih ⊢
        omega

/-- `isPrefixOf` holds for an explicit prefix. -/
theorem isPrefixOf_append_self (l1 l2 : List Char) :
    List.isPrefixOf l1 (l1 ++ l2) = true := by
  induction l1 with
  | nil => simp [List.isPrefixOf]
  | cons c cs ih => simp [List.isPrefixOf, ih]

/-! ### Claims -/

/-- C1: if decoding the analog-search response body fails, `searchAnalogs`
still returns the `Analogs` slice populated so far together with the
`HomeCountry` `MedicineInfo` (not the target `MedicineInfo`), along with
the error flag: for every decode failure the returned info value is the
`home_country` field of the partially decoded response (src/main.go:315). -/
theorem searchAnalogs_decode_failure_returns_home_country
    (cfg : Config) (medicineID : Int) (sofar : SearchAnalogResponse) :
    (searchAnalogs cfg medicineID (.decodeError sofar)).2 =
      (sofar.analogs, sofar.homeCountry, true) := rfl

/-- C2 counterexample: the claim says every non-positive country id is
rejected at startup, but `strconv.Atoi("-3")` succeeds and `-3 ≠ 0`, so
startup proceeds with home-country id `-3`: the process does not exit.
(An out-of-int64-range numeral, by contrast, is an `Atoi` range error and
is rejected, compatible with the claim.) -/
theorem startup_accepts_negative_home_country :
    (startup "token" "key" "-3" "7").exitsNonzero = false ∧
    startup "token" "key" "-3" "7" = .started "token" ⟨"key", -3, 7⟩ ∧
    startup "token" "key" "9223372036854775808" "7" =
      .fatalExit "Не указана домашняя страна" := by
  decide

/-- C2 amended: startup exits with a non-zero status and a diagnostic
exactly when the bot token or API key is missing, or a country id's
`Atoi` errors (missing, non-numeric, or outside the 64-bit `int` range)
or yields `0`; any in-range nonzero id — including a negative one — is
accepted (src/main.go:88-116). -/
theorem startup_exit_characterization
    (botToken apiKeyEnv homeEnv targetEnv : String) :
    (startup botToken apiKeyEnv homeEnv targetEnv).exitsNonzero = true ↔
      botToken.length = 0 ∨ apiKeyEnv.length = 0 ∨
      atoiOrZero homeEnv = 0 ∨ atoiOrZero targetEnv = 0 := by
  simp only [startup, beq_iff_eq]
  split_ifs <;> simp_all [StartupResult.exitsNonzero]

/-- C7: for every configuration, query and call outcome, the JSON body of
the outbound medicine-search request contains exactly four fields: the
configured API key under `api_key`, the literal `"main_search"` under
`state`, the configured home-country id under `home_country`, and the
query string verbatim under `query` (src/main.go:20-25, 236-241). -/
theorem searchMedicines_request_body_fields (cfg : Config) (query : String)
    (outcome : ApiOutcome SearchMedicineResponse) :
    (searchMedicines cfg query outcome).1.marshal =
      [("api_key", JsonValue.jstr cfg.apiKey),
       ("state", JsonValue.jstr "main_search"),
       ("home_country", JsonValue.jint cfg.houmeCountryID),
       ("query", JsonValue.jstr query)] := by
  cases outcome <;> rfl

/-- C8: for every configuration, medicine id and call outcome, the JSON
body of the outbound analog-search request contains the id under
`medicine`, the configured home-country and target-country ids, the fixed
language tag `"ru"`, the configured API key, and the literal
`"main_search"`; the country ids and the language come from the fixed
configuration, never from the request (src/main.go:31-38, 278-285). -/
theorem searchAnalogs_request_body_fields (cfg : Config) (medicineID : Int)
    (outcome : ApiOutcome SearchAnalogResponse) :
    (searchAnalogs cfg medicineID outcome).1.marshal =
      [("api_key", JsonValue.jstr cfg.apiKey),
       ("state", JsonValue.jstr "main_search"),
       ("home_country", JsonValue.jint cfg.houmeCountryID),
       ("target_country", JsonValue.jint cfg.targetCountryID),
       ("language", JsonValue.jstr "ru"),
       ("medicine", JsonValue.jint medicineID)] := by
  cases outcome <;> rfl

/-- C3: for every search response that decodes successfully with a
nonempty medicine list, the medicine-search handler replies with the found
text and exactly `min(N, 10)` single-button rows in the response's
original order, the row for the i-th medicine carrying callback payload
`"search_analog:" + medicine.ID` (src/main.go:159-178). -/
theorem searchMedicineHandler_ok_renders_buttons
    (cfg : Config) (text : String) (resp : SearchMedicineResponse)
    (h : resp.medicines ≠ []) :
    searchMedicineHandler cfg (some text) (.ok resp) =
      some ⟨"Вот что я нашел. Выберите лекарство, для которого нужно найти аналоги.",
            some ((resp.medicines.take 10).map
              (fun m => [⟨m.name, "search_analog:" ++ m.id, ""⟩]))⟩ ∧
    (medicineButtons resp.medicines).length = min resp.medicines.length 10 := by
  constructor
  · simp only [searchMedicineHandler, searchMedicines]
    rw [if_neg, medicineButtons_eq_take]
    simp [h]
  · rw [medicineButtons_eq_take]
    simp [Nat.min_comm]

/-- Witness for C3 at the spec's concrete shape: one medicine named
`Aspirin` with id `42` yields one button row with payload
`search_analog:42`. -/
theorem searchMedicineHandler_ok_renders_buttons_witness :
    (([⟨"42", "Aspirin", "", "aspirin", 1⟩] : List Medicine) ≠ []) ∧
    (searchMedicineHandler ⟨"key", 1, 2⟩ (some "aspirin")
        (.ok ⟨[⟨"42", "Aspirin", "", "aspirin", 1⟩]⟩) =
      some ⟨"Вот что я нашел. Выберите лекарство, для которого нужно найти аналоги.",
            some [[⟨"Aspirin", "search_analog:42", ""⟩]]⟩ ∧
     (medicineButtons [⟨"42", "Aspirin", "", "aspirin", 1⟩]).length = min 1 10) :=
  ⟨by decide,
   searchMedicineHandler_ok_renders_buttons ⟨"key", 1, 2⟩ "aspirin"
     ⟨[⟨"42", "Aspirin", "", "aspirin", 1⟩]⟩ (by decide)⟩

/-- C4: for every medicine search ending in a transport error, a decode
error, or an empty medicine list, the user-facing message is the single
fixed nothing-found string with no inline buttons; the three cases are
indistinguishable to the user (src/main.go:150-157). -/
theorem searchMedicineHandler_failure_is_nothing_found
    (cfg : Config) (text : String) (sofar resp : SearchMedicineResponse)
    (h : resp.medicines = []) :
    searchMedicineHandler cfg (some text) .transportError =
      some ⟨"Мне не удалось ничего найти.", none⟩ ∧
    searchMedicineHandler cfg (some text) (.decodeError sofar) =
      some ⟨"Мне не удалось ничего найти.", none⟩ ∧
    searchMedicineHandler cfg (some text) (.ok resp) =
      some ⟨"Мне не удалось ничего найти.", none⟩ := by
  obtain ⟨ms⟩ := resp
  replace h : ms = [] := h
  subst h
  exact ⟨rfl, rfl, rfl⟩

/-- Witness for C4 at a concrete empty response. -/
theorem searchMedicineHandler_failure_is_nothing_found_witness :
    (SearchMedicineResponse.mk [] |>.medicines) = [] ∧
    (searchMedicineHandler ⟨"key", 1, 2⟩ (some "aspirin") .transportError =
       some ⟨"Мне не удалось ничего найти.", none⟩ ∧
     searchMedicineHandler ⟨"key", 1, 2⟩ (some "aspirin")
        (.decodeError ⟨[]⟩) =
       some ⟨"Мне не удалось ничего найти.", none⟩ ∧
     searchMedicineHandler ⟨"key", 1, 2⟩ (some "aspirin") (.ok ⟨[]⟩) =
       some ⟨"Мне не удалось ничего найти.", none⟩) :=
  ⟨by decide,
   searchMedicineHandler_failure_is_nothing_found ⟨"key", 1, 2⟩ "aspirin"
     ⟨[]⟩ ⟨[]⟩ (by decide)⟩

/-- C5: for every analog response that decodes successfully with a
nonempty analog list (reached through a payload whose id extraction
succeeds), the analog handler replies with exactly `min(M, 10)`
single-button rows in response order, the row for each analog labeled
`AnalogName + " (" + Percentage + "%)"` and opening the URL
`"https://pillintrip.com/ru/medicine/" + AnalogSlug` — a URL button with
no callback payload (src/main.go:198-218). -/
theorem searcheAnalogHandler_ok_renders_buttons
    (cfg : Config) (data idStr : String) (resp : SearchAnalogResponse)
    (hid : extractCallbackID data = some idStr)
    (h : resp.analogs ≠ []) :
    searcheAnalogHandler cfg data (.ok resp) =
      some ⟨"Вот аналоги для \"" ++ resp.medicineInfo.medicineName ++ "\":",
            some ((resp.analogs.take 10).map
              (fun a => [⟨a.analogName ++ " (" ++ itoa a.percentage ++ "%)", "",
                         "https://pillintrip.com/ru/medicine/" ++ a.analogSlug⟩]))⟩ ∧
    (analogButtons resp.analogs).length = min resp.analogs.length 10 := by
  constructor
  · simp only [searcheAnalogHandler, hid, searchAnalogs]
    rw [if_neg, analogButtons_eq_take]
    simp [h]
  · rw [analogButtons_eq_take]
    simp [Nat.min_comm]

/-- Witness for C5: payload `search_analog:42` and one analog at 87%
yield one URL button labeled `Analgin (87%)`. -/
theorem searcheAnalogHandler_ok_renders_buttons_witness :
    extractCallbackID "search_analog:42" = some "42" ∧
    (([⟨"7", "Analgin", "analgin", 1, 2, 3, 87⟩] : List Analog) ≠ []) ∧
    (searcheAnalogHandler ⟨"key", 1, 2⟩ "search_analog:42"
        (.ok ⟨⟨"42", "Aspirin", "aspirin", ""⟩, ⟨"", "", "", ""⟩,
              [⟨"7", "Analgin", "analgin", 1, 2, 3, 87⟩]⟩) =
      some ⟨"Вот аналоги для \"Aspirin\":",
            some [[⟨"Analgin (87%)", "",
                    "https://pillintrip.com/ru/medicine/analgin"⟩]]⟩ ∧
     (analogButtons [⟨"7", "Analgin", "analgin", 1, 2, 3, 87⟩]).length = min 1 10) :=
  ⟨by decide, by decide,
   searcheAnalogHandler_ok_renders_buttons ⟨"key", 1, 2⟩ "search_analog:42" "42"
     ⟨⟨"42", "Aspirin", "aspirin", ""⟩, ⟨"", "", "", ""⟩,
      [⟨"7", "Analgin", "analgin", 1, 2, 3, 87⟩]⟩ (by decide) (by decide)⟩

/-- C6: for every analog search ending in an error or an empty analog
list (reached through a payload whose id extraction succeeds), the user
receives the no-analogs message built from whatever `MedicineInfo` name
was available — the empty string on a transport error, the partially
decoded `HomeCountry` name on a decode error, the target name on an empty
list — and no buttons are sent (src/main.go:189-196). -/
theorem searcheAnalogHandler_failure_message
    (cfg : Config) (data idStr : String) (sofar resp : SearchAnalogResponse)
    (hid : extractCallbackID data = some idStr)
    (h : resp.analogs = []) :
    searcheAnalogHandler cfg data .transportError =
      some ⟨"Мне не удалось найти аналоги для \"" ++ "" ++ "\".", none⟩ ∧
    searcheAnalogHandler cfg data (.decodeError sofar) =
      some ⟨"Мне не удалось найти аналоги для \"" ++
              sofar.homeCountry.medicineName ++ "\".", none⟩ ∧
    searcheAnalogHandler cfg data (.ok resp) =
      some ⟨"Мне не удалось найти аналоги для \"" ++
              resp.medicineInfo.medicineName ++ "\".", none⟩ := by
  obtain ⟨info, home, analogs⟩ := resp
  replace h : analogs = [] := h
  subst h
  simp only [searcheAnalogHandler, hid]
  exact ⟨rfl, rfl, rfl⟩

/-- Witness for C6 at the spec's concrete scenario: medicine id `42`,
a decoded response naming `Aspirin` with an empty analog list, and the
resulting message `Мне не удалось найти аналоги для "Aspirin".`. -/
theorem searcheAnalogHandler_failure_message_witness :
    extractCallbackID "search_analog:42" = some "42" ∧
    (SearchAnalogResponse.mk ⟨"", "Aspirin", "", ""⟩ ⟨"", "", "", ""⟩ []
       |>.analogs) = [] ∧
    (searcheAnalogHandler ⟨"key", 1, 2⟩ "search_analog:42" .transportError =
       some ⟨"Мне не удалось найти аналоги для \"\".", none⟩ ∧
     searcheAnalogHandler ⟨"key", 1, 2⟩ "search_analog:42"
        (.decodeError ⟨⟨"", "", "", ""⟩, ⟨"", "Analgin", "", ""⟩, []⟩) =
       some ⟨"Мне не удалось найти аналоги для \"Analgin\".", none⟩ ∧
     searcheAnalogHandler ⟨"key", 1, 2⟩ "search_analog:42"
        (.ok ⟨⟨"", "Aspirin", "", ""⟩, ⟨"", "", "", ""⟩, []⟩) =
       some ⟨"Мне не удалось найти аналоги для \"Aspirin\".", none⟩) :=
  ⟨by decide, by decide,
   searcheAnalogHandler_failure_message ⟨"key", 1, 2⟩ "search_analog:42" "42"
     ⟨⟨"", "", "", ""⟩, ⟨"", "Analgin", "", ""⟩, []⟩
     ⟨⟨"", "Aspirin", "", ""⟩, ⟨"", "", "", ""⟩, []⟩ (by decide) (by decide)⟩

/-- C9 counterexample: the claim quantifies over every API response, but
the handlers copy response fields into the chat surface verbatim, so a
response whose medicine name equals the configured API key (`"SECRET"`)
produces a button whose label is exactly the key — the label contains the
key, refuting the claim as stated. -/
theorem apiKey_appears_in_button_label :
    searchMedicineHandler ⟨"SECRET", 1, 2⟩ (some "aspirin")
        (.ok ⟨[⟨"42", "SECRET", "", "aspirin", 0⟩]⟩) =
      some ⟨"Вот что я нашел. Выберите лекарство, для которого нужно найти аналоги.",
            some [[⟨"SECRET", "search_analog:42", ""⟩]]⟩ := by
  decide

/-- C9 amended: the adapter itself never injects the API key into the
chat surface — every message a handler sends is independent of the
configured key (replacing the key leaves all chat output unchanged), so
the key can reach the chat only by arriving inside an update or an API
response; the key itself is placed only in the outbound request bodies,
under `api_key`. -/
theorem chat_output_independent_of_api_key
    (k1 k2 : String) (home target : Int) (messageText : Option String)
    (data q : String) (mid : Int)
    (o1 : ApiOutcome SearchMedicineResponse)
    (o2 : ApiOutcome SearchAnalogResponse) :
    searchMedicineHandler ⟨k1, home, target⟩ messageText o1 =
      searchMedicineHandler ⟨k2, home, target⟩ messageText o1 ∧
    searcheAnalogHandler ⟨k1, home, target⟩ data o2 =
      searcheAnalogHandler ⟨k2, home, target⟩ data o2 ∧
    (searchMedicines ⟨k1, home, target⟩ q o1).1.apiKey = k1 ∧
    (searchAnalogs ⟨k1, home, target⟩ mid o2).1.apiKey = k1 := by
  refine ⟨?_, ?_, ?_, ?_⟩
  · cases messageText <;> cases o1 <;> rfl
  · cases hx : extractCallbackID data <;> cases o2 <;>
      simp [searcheAnalogHandler, hx, searchAnalogs]
  · cases o1 <;> rfl
  · cases o2 <;> rfl

/-- C10 counterexample: the payload `"search_analog"` is accepted by the
prefix match on `"search_analog"`, yet splitting it on `":"` yields a
single element, so the handlers' `[1]` access is out of range (`none`
models the Go panic) — likewise for `"show_medicine"`. -/
theorem colonless_payload_breaks_id_extraction :
    hasPrefixStr "search_analog" "search_analog" = true ∧
    (splitOnChar ':' "search_analog".data).length = 1 ∧
    extractCallbackID "search_analog" = none ∧
    hasPrefixStr "show_medicine" "show_medicine" = true ∧
    extractCallbackID "show_medicine" = none := by
  decide

/-- C10 amended: every payload the bot itself emits — of the form
`"search_analog:" + id` (and the stubbed `"show_medicine:" + id`) — is
accepted by the corresponding prefix match, splits on `":"` into at least
two elements, and its id extraction succeeds, so on bot-emitted payloads
the `[1]` access is always in bounds. -/
theorem emitted_payloads_split_safely (id : String) :
    hasPrefixStr "search_analog" ("search_analog:" ++ id) = true ∧
    2 ≤ (splitOnChar ':' ("search_analog:" ++ id).data).length ∧
    (extractCallbackID ("search_analog:" ++ id)).isSome = true ∧
    hasPrefixStr "show_medicine" ("show_medicine:" ++ id) = true ∧
    2 ≤ (splitOnChar ':' ("show_medicine:" ++ id).data).length ∧
    (extractCallbackID ("show_medicine:" ++ id)).isSome = true := by
  have e1 : ("search_analog:" ++ id).data =
      "search_analog".data ++ ':' :: id.data := by
    simp [String.data_append]
  have e2 : ("show_medicine:" ++ id).data =
      "show_medicine".data ++ ':' :: id.data := by
    simp [String.data_append]
  have len1 := two_le_length_splitOnChar ':' "search_analog".data id.data
  have len2 := two_le_length_splitOnChar ':' "show_medicine".data id.data
  refine ⟨?_, ?_, ?_, ?_, ?_, ?_⟩
  · rw [hasPrefixStr, e1]
    have : "search_analog".data ++ ':' :: id.data =
        "search_analog".data ++ (':' :: id.data) := rfl
    rw [this]
    exact isPrefixOf_append_self _ _
  · rw [e1]; exact len1
  · rw [extractCallbackID, e1]
    cases hg : (splitOnChar ':' ("search_analog".data ++ ':' :: id.data)).get? 1 with
    | none =>
      have := List.get?_eq_none.mp hg
      omega
    | some piece => rfl
  · rw [hasPrefixStr, e2]
    exact isPrefixOf_append_self _ _
  · rw [e2]; exact len2
  · rw [extractCallbackID, e2]
    cases hg : (splitOnChar ':' ("show_medicine".data ++ ':' :: id.data)).get? 1 with
    | none =>
      have := List.get?_eq_none.mp hg
      omega
    | some piece => rfl

end PillsBot
